import Mathlib

/-!
Shallow embedding of the hepmc2 codec (src/src/reader.rs, src/src/writer.rs,
src/src/event.rs): the line-oriented HepMC2 reader and writer, with one Lean
definition per source function.  Lines and tokens are lists of characters;
streams are lists of lines (each line carrying its trailing newline, as
`BufRead::read_line` leaves it).
-/

/-- Lines and tokens are modelled as lists of characters. -/
abbrev Str := List Char

/-- Model of a Rust `f64` value: the decimal token it was parsed from.
`str::parse::<f64>` never fails on a token recognized by nom's float
grammar, no verified claim inspects floating-point arithmetic, and both
renderers used by the writer (the external `ryu` crate and `Display`)
are modelled as returning this token. -/
structure f64 where
  tok : Str
deriving DecidableEq, Repr

/-- The token a `Default`-constructed `f64` field (0.0) renders to. -/
def f64zero : f64 := ⟨['0']⟩

/-- Numeric value of a digit string. -/
def digitsToNat (ds : Str) : Nat :=
  ds.foldl (fun a c => 10 * a + (c.toNat - '0'.toNat)) 0

/-- Rust `str::parse::<i32>` on a token of shape `-?[0-9]+`: the value
when it fits a 32-bit signed integer, failure otherwise. -/
def parseI32 (t : Str) : Option Int :=
  match t with
  | '-' :: ds =>
    if ds.isEmpty then none
    else if digitsToNat ds ≤ 2 ^ 31 then some (-(digitsToNat ds : Int)) else none
  | ds =>
    if ds.isEmpty then none
    else if digitsToNat ds < 2 ^ 31 then some ((digitsToNat ds : Int)) else none

/-- Rust `str::parse::<usize>` on a token of shape `-?[0-9]+`: a leading
minus sign or a value past 64 bits fails. -/
def parseUsize (t : Str) : Option Nat :=
  match t with
  | '-' :: _ => none
  | ds =>
    if ds.isEmpty then none
    else if digitsToNat ds < 2 ^ 64 then some (digitsToNat ds) else none

/-- Rust `str::parse::<f64>` on a token recognized by the float grammar:
total, yielding the abstract float value. -/
def parseF64 (t : Str) : f64 := ⟨t⟩

/-- event.rs `EnergyUnit` (lines 124-128): closed enumeration. -/
inductive EnergyUnit where
  | MEV
  | GEV
deriving DecidableEq, Repr

/-- event.rs `LengthUnit` (lines 137-141): closed enumeration. -/
inductive LengthUnit where
  | MM
  | CM
deriving DecidableEq, Repr

/-- event.rs `FourVector` (line 56): four doubles, component 0 first. -/
structure FourVector where
  c0 : f64
  c1 : f64
  c2 : f64
  c3 : f64
deriving DecidableEq, Repr

/-- event.rs `FourVector::txyz` (lines 63-65). -/
def FourVector.txyz (t x y z : f64) : FourVector := ⟨t, x, y, z⟩

/-- event.rs `CrossSection` (lines 84-87). -/
structure CrossSection where
  cross_section : f64
  cross_section_error : f64
deriving DecidableEq, Repr

/-- The `Default`-constructed cross section (both fields 0.0). -/
def CrossSection.dflt : CrossSection := ⟨f64zero, f64zero⟩

/-- event.rs `PdfInfo` (lines 97-103); the two-element arrays are pairs. -/
structure PdfInfo where
  parton_id : Int × Int
  x : f64 × f64
  scale : f64
  xf : f64 × f64
  pdf_id : Int × Int
deriving DecidableEq, Repr

/-- The `Default`-constructed PDF info (zeroed). -/
def PdfInfo.dflt : PdfInfo :=
  ⟨(0, 0), (f64zero, f64zero), f64zero, (f64zero, f64zero), (0, 0)⟩

/-- event.rs `HeavyIonInfo` (lines 107-121). -/
structure HeavyIonInfo where
  ncoll_hard : Int
  npart_proj : Int
  npart_targ : Int
  ncoll : Int
  spectator_neutrons : Int
  spectator_protons : Int
  n_nwounded_collisions : Int
  nwounded_n_collisions : Int
  nwounded_nwounded_collisions : Int
  impact_parameter : f64
  event_plane_angle : f64
  eccentricity : f64
  sigma_inel_nn : f64
deriving DecidableEq, Repr

/-- event.rs `Particle` (lines 43-52).  `flows` is the entry list of the
map from flow index to flow value (a `BTreeMap` on the event.rs side,
iterated in ascending key order by the writer; reader.rs fills it through
`HashMap::insert`, modelled by `hashInsert`). -/
structure Particle where
  id : Int
  p : FourVector
  m : f64
  status : Int
  theta : f64
  phi : f64
  flows : List (Int × Int)
  end_vtx : Int
deriving DecidableEq, Repr

/-- event.rs `Vertex` (lines 29-39). -/
structure Vertex where
  barcode : Int
  status : Int
  x : f64
  y : f64
  z : f64
  t : f64
  weights : List f64
  particles_in : List Particle
  particles_out : List Particle
deriving DecidableEq, Repr

/-- event.rs `Event` (lines 7-25), the value the writer serializes. -/
structure Event where
  number : Int
  mpi : Int
  scale : f64
  alpha_qcd : f64
  alpha_qed : f64
  signal_process_id : Int
  signal_process_vertex : Int
  random_states : List Int
  weights : List f64
  weight_names : List Str
  vertices : List Vertex
  xs : CrossSection
  pdf_info : PdfInfo
  energy_unit : EnergyUnit
  length_unit : LengthUnit
  heavy_ion_info : Option HeavyIonInfo
deriving DecidableEq, Repr

/-- The event value as reader.rs constructs and mutates it.  This reader
predates the `heavy_ion_info` field of event.rs and stores the two unit
tokens as raw strings (`parse_units_line` assigns `to_owned` tokens),
whereas event.rs declares the closed enumerations `EnergyUnit` and
`LengthUnit` for the same fields; the fields are listed in the order of
the struct literal in reader.rs lines 157-173. -/
structure REvent where
  number : Int
  mpi : Int
  scale : f64
  alpha_qcd : f64
  alpha_qed : f64
  signal_process_id : Int
  signal_process_vertex : Int
  random_states : List Int
  weights : List f64
  vertices : List Vertex
  weight_names : List Str
  xs : CrossSection
  energy_unit : Str
  length_unit : Str
  pdf_info : PdfInfo
deriving DecidableEq, Repr

/-- reader.rs `ParseError` (lines 405-413).  The `Io` variant cannot arise
here (streams are already-split line lists), `Parse` drops the nom message
text, and `ConvertFloat` is unreachable because float conversion is total
on recognized tokens. -/
inductive ParseError where
  | Io
  | Parse
  | ConvertInt
  | ConvertFloat
  | BadPrefix
  | NoVertex
deriving DecidableEq, Repr

/-- reader.rs `LineParseError` (lines 397-402): an error together with the
offending line and its 1-based number. -/
structure LineParseError where
  err : ParseError
  line : Str
  line_nr : Nat
deriving DecidableEq, Repr

deriving instance DecidableEq for Except

/-- A nom parser over characters: failure, or the remaining input together
with the parsed value (all parsers here are `complete`). -/
def NomP (α : Type) : Type := Str → Option (Str × α)

/-- nom `char(c)`. -/
def charP (c : Char) : NomP Char := fun s =>
  match s with
  | c2 :: r => if c2 = c then some (r, c) else none
  | [] => none

/-- nom `take_while1 p`. -/
def takeWhile1 (p : Char → Bool) : NomP Str := fun s =>
  let t := s.takeWhile p
  if t.isEmpty then none else some (s.dropWhile p, t)

/-- Rust `char::is_ascii_whitespace`. -/
def isAsciiWhitespace (c : Char) : Bool :=
  c == ' ' || c == '\t' || c == '\n' || c == '\r' || c == '\x0c'

/-- reader.rs `whitespace` (lines 90-92): nom `space1`, one or more spaces
or tabs - a newline is not a space character for `space1`. -/
def whitespace : NomP Str := takeWhile1 (fun c => c == ' ' || c == '\t')

/-- reader.rs `non_whitespace` (lines 94-96). -/
def non_whitespace : NomP Str := takeWhile1 (fun c => !isAsciiWhitespace c)

/-- reader.rs `int` (lines 98-104): `recognize(opt(char('-')),
take_while1(is_ascii_digit))` - an optional minus sign, then at least one
digit. -/
def int : NomP Str := fun s =>
  if s.head? = some '-' then
    match takeWhile1 Char.isDigit s.tail with
    | some (r2, ds) => some (r2, '-' :: ds)
    | none => none
  else
    match takeWhile1 Char.isDigit s with
    | some (r2, ds) => some (r2, ds)
    | none => none

/-- reader.rs `string` (lines 106-108): `delimited(char('"'),
take_until("\""), char('"'))`. -/
def string : NomP Str := fun s =>
  match s with
  | '"' :: r =>
    if r.any (fun c => c == '"') then
      some ((r.dropWhile (fun c => !(c == '"'))).drop 1,
        r.takeWhile (fun c => !(c == '"')))
    else none
  | _ => none

/-- Mantissa branch of nom `recognize_float`: digits with an optional
fraction, or a fraction alone. -/
def floatMantissa : NomP Str := fun s =>
  match takeWhile1 Char.isDigit s with
  | some (r, ds) =>
    match r with
    | '.' :: r2 =>
      some (r2.dropWhile Char.isDigit, ds ++ '.' :: r2.takeWhile Char.isDigit)
    | _ => some (r, ds)
  | none =>
    match s with
    | '.' :: r =>
      match takeWhile1 Char.isDigit r with
      | some (r2, ds) => some (r2, '.' :: ds)
      | none => none
    | _ => none

/-- Exponent tail of nom `recognize_float` after the `e`/`E`: optional
sign, then mandatory digits (nom `cut(digit1)`). -/
def expTail (e : Char) : NomP Str := fun r =>
  let sr : Str × Str :=
    match r with
    | '+' :: r2 => (['+'], r2)
    | '-' :: r2 => (['-'], r2)
    | _ => ([], r)
  match takeWhile1 Char.isDigit sr.2 with
  | some (r2, ds) => some (r2, e :: (sr.1 ++ ds))
  | none => none

/-- Optional exponent of nom `recognize_float`. -/
def floatExponent : NomP Str := fun s =>
  match s with
  | 'e' :: r => expTail 'e' r
  | 'E' :: r => expTail 'E' r
  | _ => some (s, [])

/-- nom `recognize_float`: optional sign, mantissa, optional exponent. -/
def recognize_float : NomP Str := fun s =>
  let sr : Str × Str :=
    match s with
    | '+' :: r => (['+'], r)
    | '-' :: r => (['-'], r)
    | _ => ([], s)
  match floatMantissa sr.2 with
  | none => none
  | some (r, m) =>
    match floatExponent r with
    | none => none
    | some (r2, e) => some (r2, sr.1 ++ m ++ e)

/-- nom `double`, modelled as recognizing the float grammar and wrapping
the token as the abstract `f64` value. -/
def double : NomP f64 := fun s =>
  match recognize_float s with
  | some (r, t) => some (r, ⟨t⟩)
  | none => none

/-- nom `preceded(whitespace, int)`: the alternating shape of every record
grammar in reader.rs. -/
def wsInt : NomP Str := fun s =>
  match whitespace s with
  | none => none
  | some (r, _) => int r

/-- nom `preceded(whitespace, recognize_float)`. -/
def wsFloat : NomP Str := fun s =>
  match whitespace s with
  | none => none
  | some (r, _) => recognize_float r

/-- nom `preceded(whitespace, double)`. -/
def wsDouble : NomP f64 := fun s =>
  match whitespace s with
  | none => none
  | some (r, _) => double r

/-- nom `opt(int)` (always succeeds, consuming nothing on failure). -/
def optInt (s : Str) : Str × Option Str :=
  match int s with
  | some (r, t) => (r, some t)
  | none => (s, none)

/-- The count-prefixed loop of reader.rs lines 143-148: `n` random-state
integers, each parsed as `preceded(whitespace, int)` and converted with
`str::parse::<i32>`. -/
def parseNRandom : Nat → Str → Except ParseError (Str × List Int)
  | 0, s => Except.ok (s, [])
  | n + 1, s =>
    match wsInt s with
    | none => Except.error ParseError.Parse
    | some (r, t) =>
      match parseI32 t with
      | none => Except.error ParseError.ConvertInt
      | some v =>
        match parseNRandom n r with
        | Except.error e => Except.error e
        | Except.ok (r2, vs) => Except.ok (r2, v :: vs)

/-- The count-prefixed weight loops of reader.rs lines 152-156 and
204-208: `n` values parsed as `preceded(whitespace, double)`. -/
def parseNDoubles : Nat → Str → Option (Str × List f64)
  | 0, s => some (s, [])
  | n + 1, s =>
    match wsDouble s with
    | none => none
    | some (r, w) =>
      match parseNDoubles n r with
      | none => none
      | some (r2, ws) => some (r2, w :: ws)

/-- The quoted-name loop of reader.rs lines 353-359: `n` names, each
parsed as `tuple((whitespace, string))`. -/
def parseNNames : Nat → Str → Option (Str × List Str)
  | 0, s => some (s, [])
  | n + 1, s =>
    match whitespace s with
    | none => none
    | some (r, _) =>
      match string r with
      | none => none
      | some (r2, name) =>
        match parseNNames n r2 with
        | none => none
        | some (r3, names) => some (r3, name :: names)

/-- Rust `HashMap::insert`: replace the value at an existing key,
otherwise add the entry. -/
def hashInsert (m : List (Int × Int)) (k v : Int) : List (Int × Int) :=
  if m.any (fun kv => kv.1 == k) then
    m.map (fun kv => if kv.1 == k then (k, v) else kv)
  else m ++ [(k, v)]

/-- The flow loop of reader.rs lines 260-267: pairs of
`preceded(whitespace, int)`, each converted with `str::parse::<i32>` and
inserted into the flow map. -/
def parseFlows : Nat → Str → List (Int × Int) → Except ParseError (Str × List (Int × Int))
  | 0, s, m => Except.ok (s, m)
  | n + 1, s, m =>
    match wsInt s with
    | none => Except.error ParseError.Parse
    | some (r, kt) =>
      match parseI32 kt with
      | none => Except.error ParseError.ConvertInt
      | some k =>
        match wsInt r with
        | none => Except.error ParseError.Parse
        | some (r2, vt) =>
          match parseI32 vt with
          | none => Except.error ParseError.ConvertInt
          | some v => parseFlows n r2 (hashInsert m k v)

/-- reader.rs `parse_event_line` (lines 110-175): the `E` record grammar
(scalar fields, two discarded beam tokens, count-prefixed random states
and weights) followed by the integer conversions in the order of the
struct literal; the vertex list starts empty (`Vec::with_capacity`). -/
def parse_event_line (l : Str) : Except ParseError REvent :=
  match charP 'E' l with
  | none => Except.error ParseError.Parse
  | some (r0, _) =>
  match wsInt r0 with
  | none => Except.error ParseError.Parse
  | some (r1, event_number) =>
  match wsInt r1 with
  | none => Except.error ParseError.Parse
  | some (r2, mpi) =>
  match wsFloat r2 with
  | none => Except.error ParseError.Parse
  | some (r3, event_scale) =>
  match wsFloat r3 with
  | none => Except.error ParseError.Parse
  | some (r4, alpha_qcd) =>
  match wsFloat r4 with
  | none => Except.error ParseError.Parse
  | some (r5, alpha_qed) =>
  match wsInt r5 with
  | none => Except.error ParseError.Parse
  | some (r6, signal_process_id) =>
  match wsInt r6 with
  | none => Except.error ParseError.Parse
  | some (r7, signal_process_vertex) =>
  match wsInt r7 with
  | none => Except.error ParseError.Parse
  | some (r8, num_vertices) =>
  match wsInt r8 with
  | none => Except.error ParseError.Parse
  | some (r9, _beam1) =>
  match wsInt r9 with
  | none => Except.error ParseError.Parse
  | some (r10, _beam2) =>
  match wsInt r10 with
  | none => Except.error ParseError.Parse
  | some (r11, nrandomTok) =>
  match parseUsize nrandomTok with
  | none => Except.error ParseError.ConvertInt
  | some nrandom =>
  match parseNRandom nrandom r11 with
  | Except.error e => Except.error e
  | Except.ok (r12, random_states) =>
  match wsInt r12 with
  | none => Except.error ParseError.Parse
  | some (r13, nweightsTok) =>
  match parseUsize nweightsTok with
  | none => Except.error ParseError.ConvertInt
  | some nweights =>
  match parseNDoubles nweights r13 with
  | none => Except.error ParseError.Parse
  | some (_, weights) =>
  match parseI32 event_number with
  | none => Except.error ParseError.ConvertInt
  | some numberV =>
  match parseI32 mpi with
  | none => Except.error ParseError.ConvertInt
  | some mpiV =>
  match parseI32 signal_process_id with
  | none => Except.error ParseError.ConvertInt
  | some spidV =>
  match parseI32 signal_process_vertex with
  | none => Except.error ParseError.ConvertInt
  | some spvtxV =>
  match parseUsize num_vertices with
  | none => Except.error ParseError.ConvertInt
  | some _ =>
  Except.ok
    { number := numberV
      mpi := mpiV
      scale := parseF64 event_scale
      alpha_qcd := parseF64 alpha_qcd
      alpha_qed := parseF64 alpha_qed
      signal_process_id := spidV
      signal_process_vertex := spvtxV
      random_states := random_states
      weights := weights
      vertices := []
      weight_names := []
      xs := CrossSection.dflt
      energy_unit := []
      length_unit := []
      pdf_info := PdfInfo.dflt }

/-- Grammar and construction of one vertex from reader.rs
`parse_vertex_line` (lines 177-219), without the final push onto the
event: barcode, status, position, two count tokens (orphans discarded,
outgoing count only a capacity hint) and the count-prefixed weights. -/
def vertexFromLine (l : Str) : Except ParseError Vertex :=
  match charP 'V' l with
  | none => Except.error ParseError.Parse
  | some (r0, _) =>
  match wsInt r0 with
  | none => Except.error ParseError.Parse
  | some (r1, barcode) =>
  match wsInt r1 with
  | none => Except.error ParseError.Parse
  | some (r2, status) =>
  match wsFloat r2 with
  | none => Except.error ParseError.Parse
  | some (r3, x) =>
  match wsFloat r3 with
  | none => Except.error ParseError.Parse
  | some (r4, y) =>
  match wsFloat r4 with
  | none => Except.error ParseError.Parse
  | some (r5, z) =>
  match wsFloat r5 with
  | none => Except.error ParseError.Parse
  | some (r6, t) =>
  match wsInt r6 with
  | none => Except.error ParseError.Parse
  | some (r7, _num_orphans_in) =>
  match wsInt r7 with
  | none => Except.error ParseError.Parse
  | some (r8, num_particles_out) =>
  match wsInt r8 with
  | none => Except.error ParseError.Parse
  | some (r9, num_weights) =>
  match parseUsize num_weights with
  | none => Except.error ParseError.ConvertInt
  | some nw =>
  match parseNDoubles nw r9 with
  | none => Except.error ParseError.Parse
  | some (_, weights) =>
  match parseI32 barcode with
  | none => Except.error ParseError.ConvertInt
  | some barcodeV =>
  match parseI32 status with
  | none => Except.error ParseError.ConvertInt
  | some statusV =>
  match parseUsize num_particles_out with
  | none => Except.error ParseError.ConvertInt
  | some _ =>
  Except.ok
    { barcode := barcodeV
      status := statusV
      x := parseF64 x
      y := parseF64 y
      z := parseF64 z
      t := parseF64 t
      weights := weights
      particles_in := []
      particles_out := [] }

/-- reader.rs `parse_vertex_line` (lines 177-222): parse the vertex and
append it to the event's vertex list. -/
def parse_vertex_line (l : Str) (ev : REvent) : Except ParseError REvent :=
  match vertexFromLine l with
  | Except.error e => Except.error e
  | Except.ok v => Except.ok { ev with vertices := ev.vertices ++ [v] }

/-- Continuation of the `P` record grammar after the discarded barcode
token (reader.rs lines 228-277): id, momentum, mass, status, angles,
`end_vtx`, and the count-prefixed flow pairs, followed by the integer
conversions in the order of the struct literal. -/
def particleAfterBarcode (s0 : Str) : Except ParseError Particle :=
  match wsInt s0 with
  | none => Except.error ParseError.Parse
  | some (r1, id) =>
  match wsFloat r1 with
  | none => Except.error ParseError.Parse
  | some (r2, px) =>
  match wsFloat r2 with
  | none => Except.error ParseError.Parse
  | some (r3, py) =>
  match wsFloat r3 with
  | none => Except.error ParseError.Parse
  | some (r4, pz) =>
  match wsFloat r4 with
  | none => Except.error ParseError.Parse
  | some (r5, e) =>
  match wsFloat r5 with
  | none => Except.error ParseError.Parse
  | some (r6, m) =>
  match wsInt r6 with
  | none => Except.error ParseError.Parse
  | some (r7, status) =>
  match wsFloat r7 with
  | none => Except.error ParseError.Parse
  | some (r8, theta) =>
  match wsFloat r8 with
  | none => Except.error ParseError.Parse
  | some (r9, phi) =>
  match wsInt r9 with
  | none => Except.error ParseError.Parse
  | some (r10, end_vtx_code) =>
  match wsInt r10 with
  | none => Except.error ParseError.Parse
  | some (r11, flowsizeTok) =>
  match parseI32 flowsizeTok with
  | none => Except.error ParseError.ConvertInt
  | some flowsize =>
  match parseFlows flowsize.toNat r11 [] with
  | Except.error e2 => Except.error e2
  | Except.ok (_, flows) =>
  match parseI32 id with
  | none => Except.error ParseError.ConvertInt
  | some idV =>
  match parseI32 status with
  | none => Except.error ParseError.ConvertInt
  | some statusV =>
  match parseI32 end_vtx_code with
  | none => Except.error ParseError.ConvertInt
  | some endVtxV =>
  Except.ok
    { id := idV
      p := FourVector.txyz (parseF64 e) (parseF64 px) (parseF64 py) (parseF64 pz)
      m := parseF64 m
      status := statusV
      theta := parseF64 theta
      phi := parseF64 phi
      flows := flows
      end_vtx := endVtxV }

/-- Grammar part of reader.rs `parse_particle_line` (lines 224-277): the
particle parsed from one `P` line; the particle barcode token is parsed
and then discarded (`_barcode`), exactly as in the source. -/
def particleFromLine (l : Str) : Except ParseError Particle :=
  match charP 'P' l with
  | none => Except.error ParseError.Parse
  | some (r0, _) =>
  match whitespace r0 with
  | none => Except.error ParseError.Parse
  | some (r1, _) =>
  match int r1 with
  | none => Except.error ParseError.Parse
  | some (r2, _barcode) => particleAfterBarcode r2

/-- reader.rs `parse_particle_line` (lines 224-289): parse the particle,
then append it to the last vertex's incoming list when its `end_vtx`
equals that vertex's barcode and to the outgoing list otherwise; when the
event has no vertex yet this is the structural `NoVertex` error. -/
def parse_particle_line (l : Str) (ev : REvent) : Except ParseError REvent :=
  match particleFromLine l with
  | Except.error e => Except.error e
  | Except.ok particle =>
    match ev.vertices.getLast? with
    | none => Except.error ParseError.NoVertex
    | some vertex =>
      Except.ok { ev with vertices := ev.vertices.dropLast ++
        [if particle.end_vtx = vertex.barcode
         then { vertex with particles_in := vertex.particles_in ++ [particle] }
         else { vertex with particles_out := vertex.particles_out ++ [particle] }] }

/-- Grammar of reader.rs `parse_units_line` (lines 291-301): `U`, then two
bare non-whitespace tokens.  No validation happens: any token pair is
accepted and returned verbatim (`to_owned`). -/
def unitsFromLine (l : Str) : Except ParseError (Str × Str) :=
  match charP 'U' l with
  | none => Except.error ParseError.Parse
  | some (r0, _) =>
  match whitespace r0 with
  | none => Except.error ParseError.Parse
  | some (r1, _) =>
  match non_whitespace r1 with
  | none => Except.error ParseError.Parse
  | some (r2, energy) =>
  match whitespace r2 with
  | none => Except.error ParseError.Parse
  | some (r3, _) =>
  match non_whitespace r3 with
  | none => Except.error ParseError.Parse
  | some (_, length) => Except.ok (energy, length)

/-- reader.rs `parse_units_line` (lines 291-301): store the two raw unit
tokens on the event. -/
def parse_units_line (l : Str) (ev : REvent) : Except ParseError REvent :=
  match unitsFromLine l with
  | Except.error e => Except.error e
  | Except.ok (energy, length) =>
    Except.ok { ev with energy_unit := energy, length_unit := length }

/-- Grammar and conversions of reader.rs `parse_pdf_info_line` (lines
303-337).  Note the tuple demands a `whitespace` (nom `space1`: spaces or
tabs only) after `xf1` and after each optional id token, so a line whose
remaining text is just the newline fails the grammar. -/
def pdfInfoFromLine (l : Str) : Except ParseError PdfInfo :=
  match charP 'F' l with
  | none => Except.error ParseError.Parse
  | some (r0, _) =>
  match wsInt r0 with
  | none => Except.error ParseError.Parse
  | some (r1, id0) =>
  match wsInt r1 with
  | none => Except.error ParseError.Parse
  | some (r2, id1) =>
  match wsFloat r2 with
  | none => Except.error ParseError.Parse
  | some (r3, x0) =>
  match wsFloat r3 with
  | none => Except.error ParseError.Parse
  | some (r4, x1) =>
  match wsFloat r4 with
  | none => Except.error ParseError.Parse
  | some (r5, scale) =>
  match wsFloat r5 with
  | none => Except.error ParseError.Parse
  | some (r6, xf0) =>
  match wsFloat r6 with
  | none => Except.error ParseError.Parse
  | some (r7, xf1) =>
  match whitespace r7 with
  | none => Except.error ParseError.Parse
  | some (r8, _) =>
  match optInt r8 with
  | (r9, pdf_id0) =>
  match whitespace r9 with
  | none => Except.error ParseError.Parse
  | some (r10, _) =>
  match optInt r10 with
  | (r11, pdf_id1) =>
  match whitespace r11 with
  | none => Except.error ParseError.Parse
  | some _ =>
  match parseI32 id0 with
  | none => Except.error ParseError.ConvertInt
  | some id0V =>
  match parseI32 id1 with
  | none => Except.error ParseError.ConvertInt
  | some id1V =>
  match (match pdf_id0 with
         | none => some 0
         | some t => parseI32 t) with
  | none => Except.error ParseError.ConvertInt
  | some pdfId0V =>
  match (match pdf_id1 with
         | none => some 0
         | some t => parseI32 t) with
  | none => Except.error ParseError.ConvertInt
  | some pdfId1V =>
  Except.ok
    { parton_id := (id0V, id1V)
      x := (parseF64 x0, parseF64 x1)
      scale := parseF64 scale
      xf := (parseF64 xf0, parseF64 xf1)
      pdf_id := (pdfId0V, pdfId1V) }

/-- reader.rs `parse_pdf_info_line` (lines 303-340): store the parsed PDF
info on the event. -/
def parse_pdf_info_line (l : Str) (ev : REvent) : Except ParseError REvent :=
  match pdfInfoFromLine l with
  | Except.error e => Except.error e
  | Except.ok pdf_info => Except.ok { ev with pdf_info := pdf_info }

/-- Grammar of reader.rs `parse_weight_names_line` (lines 346-362): `N`,
a count, then that many quoted names. -/
def namesFromLine (l : Str) : Except ParseError (List Str) :=
  match charP 'N' l with
  | none => Except.error ParseError.Parse
  | some (r0, _) =>
  match whitespace r0 with
  | none => Except.error ParseError.Parse
  | some (r1, _) =>
  match int r1 with
  | none => Except.error ParseError.Parse
  | some (r2, nnamesTok) =>
  match parseUsize nnamesTok with
  | none => Except.error ParseError.ConvertInt
  | some nnames =>
  match parseNNames nnames r2 with
  | none => Except.error ParseError.Parse
  | some (_, names) => Except.ok names

/-- reader.rs `parse_weight_names_line` (lines 346-362): store the parsed
weight names on the event. -/
def parse_weight_names_line (l : Str) (ev : REvent) : Except ParseError REvent :=
  match namesFromLine l with
  | Except.error e => Except.error e
  | Except.ok names => Except.ok { ev with weight_names := names }

/-- Grammar of reader.rs `parse_xs_info_line` (lines 364-377): `C`, then
the cross section and its error. -/
def xsFromLine (l : Str) : Except ParseError CrossSection :=
  match charP 'C' l with
  | none => Except.error ParseError.Parse
  | some (r0, _) =>
  match wsFloat r0 with
  | none => Except.error ParseError.Parse
  | some (r1, xs) =>
  match wsFloat r1 with
  | none => Except.error ParseError.Parse
  | some (_, xs_err) =>
  Except.ok { cross_section := parseF64 xs, cross_section_error := parseF64 xs_err }

/-- reader.rs `parse_xs_info_line` (lines 364-377): store the parsed cross
section on the event. -/
def parse_xs_info_line (l : Str) (ev : REvent) : Except ParseError REvent :=
  match xsFromLine l with
  | Except.error e => Except.error e
  | Except.ok xs => Except.ok { ev with xs := xs }

/-- Outcome of one body-loop dispatch: the updated event, a returned
parse error, or a Rust panic (only `parse_heavy_ion_line` panics). -/
inductive StepRes where
  | ok : REvent → StepRes
  | err : ParseError → StepRes
  | panic : StepRes
deriving DecidableEq, Repr

/-- Lift a record parser result into a step outcome. -/
def liftE (r : Except ParseError REvent) : StepRes :=
  match r with
  | Except.ok ev => StepRes.ok ev
  | Except.error e => StepRes.err e

/-- reader.rs `parse_heavy_ion_line` (lines 342-344): the body is the Rust
`unimplemented` macro, which panics unconditionally; modelled as the
distinct panic outcome (never an `Except` value). -/
def parse_heavy_ion_line (_l : Str) (_ev : REvent) : StepRes := StepRes.panic

/-- One iteration of the body loop of reader.rs `parse_event_inner`
(lines 63-73) for a line whose first byte is not `E`: dispatch on the
first byte; any other prefix (including a blank line, whose first byte is
the newline) is `BadPrefix`. -/
def bodyStep (l : Str) (ev : REvent) : StepRes :=
  match l.head? with
  | none => StepRes.err ParseError.BadPrefix
  | some c =>
    if c = 'V' then liftE (parse_vertex_line l ev)
    else if c = 'P' then liftE (parse_particle_line l ev)
    else if c = 'U' then liftE (parse_units_line l ev)
    else if c = 'F' then liftE (parse_pdf_info_line l ev)
    else if c = 'H' then parse_heavy_ion_line l ev
    else if c = 'N' then liftE (parse_weight_names_line l ev)
    else if c = 'C' then liftE (parse_xs_info_line l ev)
    else StepRes.err ParseError.BadPrefix

/-- Outcome of the body loop: the finished event with the remaining
stream, the current line and the line counter; or an error with the
offending line and its number; or a panic. -/
inductive LoopRes where
  | ok : REvent → List Str → Str → Nat → LoopRes
  | err : ParseError → Str → Nat → LoopRes
  | panic : Str → Nat → LoopRes
deriving DecidableEq, Repr

/-- The body loop of reader.rs `parse_event_inner` (lines 57-74): read
lines until a fresh `E` line (kept as the current line for the next
event) or end of stream (current line left empty), dispatching each line
through `bodyStep`.  `nr` is the number of the `E` line that opened the
event. -/
def eventLoop (ev : REvent) (stream : List Str) (nr : Nat) : LoopRes :=
  match stream with
  | [] => LoopRes.ok ev [] [] nr
  | l :: rest =>
    if l.head? = some 'E' then LoopRes.ok ev rest l (nr + 1)
    else
      match bodyStep l ev with
      | StepRes.ok ev2 => eventLoop ev2 rest (nr + 1)
      | StepRes.err e => LoopRes.err e l (nr + 1)
      | StepRes.panic => LoopRes.panic l (nr + 1)

/-- Outcome of parsing one event, errors wrapped as `LineParseError`. -/
inductive EventRes where
  | ok : REvent → List Str → Str → Nat → EventRes
  | err : LineParseError → EventRes
  | panic : Str → Nat → EventRes
deriving DecidableEq, Repr

/-- reader.rs `parse_event` (lines 78-87) over `parse_event_inner` (lines
55-76): parse the `E` line held in `line`, run the body loop, and wrap
any error with the line it happened on and that line's 1-based number. -/
def parse_event (line : Str) (stream : List Str) (nr : Nat) : EventRes :=
  match parse_event_line line with
  | Except.error e => EventRes.err ⟨e, line, nr⟩
  | Except.ok ev0 =>
    match eventLoop ev0 stream nr with
    | LoopRes.ok ev rest l n => EventRes.ok ev rest l n
    | LoopRes.err e l n => EventRes.err ⟨e, l, n⟩
    | LoopRes.panic l n => EventRes.panic l n

/-- Rust `str::trim().is_empty()`: the line is blank (whitespace is
modelled as the ASCII whitespace characters, adequate for this ASCII
format). -/
def isBlank (l : Str) : Bool := l.all isAsciiWhitespace

/-- Rust `str::starts_with("HepMC")`. -/
def startsWithHepMC (l : Str) : Bool := "HepMC".data.isPrefixOf l

/-- The reading half of reader.rs `skip_headers`: after the current line
was found blank or banner, keep reading lines while they stay blank or
banner (leaving the line empty at end of stream). -/
def skipAux : List Str → Nat → Str × List Str × Nat
  | [], nr => ([], [], nr)
  | l :: rest, nr =>
    if isBlank l || startsWithHepMC l then skipAux rest (nr + 1)
    else (l, rest, nr + 1)

/-- reader.rs `skip_headers` (lines 44-53): while the current line is
blank or begins with `HepMC`, read the next line (leaving the line empty
at end of stream); returns the new current line, remaining stream and
line counter. -/
def skip_headers (line : Str) (stream : List Str) (nr : Nat) : Str × List Str × Nat :=
  if isBlank line || startsWithHepMC line then skipAux stream nr
  else (line, stream, nr)

/-- Outcome of one `Iterator::next` pull on the reader. -/
inductive NextRes where
  | finished : NextRes
  | ok : REvent → Str → List Str → Nat → NextRes
  | err : LineParseError → NextRes
  | panic : Str → Nat → NextRes
deriving DecidableEq, Repr

/-- The `Iterator::next` of reader.rs (lines 379-395): skip framing lines,
end the sequence when the stream is exhausted, otherwise parse one event.
A fresh reader (`Reader::from`) starts with an empty current line and a
zero line counter. -/
def readerNext (line : Str) (stream : List Str) (nr : Nat) : NextRes :=
  match skip_headers line stream nr with
  | (l, rest, n) =>
    if l.isEmpty then NextRes.finished
    else
      match parse_event l rest n with
      | EventRes.ok ev rest2 l2 n2 => NextRes.ok ev l2 rest2 n2
      | EventRes.err e => NextRes.err e
      | EventRes.panic l2 n2 => NextRes.panic l2 n2

/-- Helper for stating claims about error-free line prefixes: run the
body-loop dispatch over a list of lines, requiring every step to
succeed. -/
def processPrefix (ev : REvent) (ls : List Str) : Option REvent :=
  match ls with
  | [] => some ev
  | l :: rest =>
    match bodyStep l ev with
    | StepRes.ok ev2 => processPrefix ev2 rest
    | _ => none

/-- Decimal rendering of an integer field (Rust `{}` on `i32`). -/
def intStr (i : Int) : Str := (toString i).data

/-- Decimal rendering of a length field (Rust `{}` on `usize`). -/
def natStr (n : Nat) : Str := (toString n).data

/-- The external `ryu` crate's shortest-round-trip rendering of an `f64`,
modelled as the stored token (writer.rs uses it for every float field
except vertex weights). -/
def ryuFormat (x : f64) : Str := x.tok

/-- Rust `Display` for `f64` (used for vertex weights, writer.rs line
235), also modelled as the stored token. -/
def displayF64 (x : f64) : Str := x.tok

/-- Rust `{:?}` (derived `Debug`) for `EnergyUnit`: the variant name. -/
def EnergyUnit.debugStr : EnergyUnit → Str
  | EnergyUnit.MEV => "MEV".data
  | EnergyUnit.GEV => "GEV".data

/-- Rust `{:?}` (derived `Debug`) for `LengthUnit`: the variant name. -/
def LengthUnit.debugStr : LengthUnit → Str
  | LengthUnit.MM => "MM".data
  | LengthUnit.CM => "CM".data

/-- writer.rs `write_event_line` (lines 188-215): scalar fields, the
vertex count, the two constant `0 0` placeholders, then the
count-prefixed random states and weights. -/
def write_event_line (e : Event) : Str :=
  'E' :: ' ' :: (intStr e.number
    ++ ' ' :: intStr e.mpi
    ++ ' ' :: ryuFormat e.scale
    ++ ' ' :: ryuFormat e.alpha_qcd
    ++ ' ' :: ryuFormat e.alpha_qed
    ++ ' ' :: intStr e.signal_process_id
    ++ ' ' :: intStr e.signal_process_vertex
    ++ ' ' :: natStr e.vertices.length
    ++ ' ' :: '0' :: ' ' :: '0' :: ' ' :: natStr e.random_states.length
    ++ (e.random_states.map (fun s => ' ' :: intStr s)).flatten
    ++ ' ' :: natStr e.weights.length
    ++ (e.weights.map (fun w => ' ' :: ryuFormat w)).flatten
    ++ ['\n'])

/-- writer.rs `write_vertex_line` (lines 217-238): barcode, status,
position, the constant `0` orphan count, the total particle count and the
count-prefixed weights (rendered with `Display`). -/
def write_vertex_line (v : Vertex) : Str :=
  'V' :: ' ' :: (intStr v.barcode
    ++ ' ' :: intStr v.status
    ++ ' ' :: ryuFormat v.x
    ++ ' ' :: ryuFormat v.y
    ++ ' ' :: ryuFormat v.z
    ++ ' ' :: ryuFormat v.t
    ++ ' ' :: '0' :: ' ' :: natStr (v.particles_in.length + v.particles_out.length)
    ++ ' ' :: natStr v.weights.length
    ++ (v.weights.map (fun w => ' ' :: displayF64 w)).flatten
    ++ ['\n'])

/-- writer.rs `write_particle_line` (lines 240-264): the literal constant
`0` barcode token, id, momentum components 1,2,3,0, mass, status, angles,
`end_vtx` and the flow map in ascending key order. -/
def write_particle_line (particle : Particle) : Str :=
  'P' :: ' ' :: '0' :: ' ' :: (intStr particle.id
    ++ ' ' :: ryuFormat particle.p.c1
    ++ ' ' :: ryuFormat particle.p.c2
    ++ ' ' :: ryuFormat particle.p.c3
    ++ ' ' :: ryuFormat particle.p.c0
    ++ ' ' :: ryuFormat particle.m
    ++ ' ' :: intStr particle.status
    ++ ' ' :: ryuFormat particle.theta
    ++ ' ' :: ryuFormat particle.phi
    ++ ' ' :: intStr particle.end_vtx
    ++ ' ' :: natStr particle.flows.length
    ++ (particle.flows.map (fun kv => ' ' :: (intStr kv.1 ++ ' ' :: intStr kv.2))).flatten
    ++ ['\n'])

/-- writer.rs `write_weight_names_line` (lines 266-276): the count, then
each name quoted. -/
def write_weight_names_line (names : List Str) : Str :=
  'N' :: ' ' :: (natStr names.length
    ++ (names.map (fun n => ' ' :: '"' :: (n ++ ['"']))).flatten
    ++ ['\n'])

/-- writer.rs `write_unit_line` (lines 278-290): the two unit enums
rendered with `{:?}`. -/
def write_unit_line (e : Event) : Str :=
  'U' :: ' ' :: (e.energy_unit.debugStr ++ ' ' :: e.length_unit.debugStr ++ ['\n'])

/-- writer.rs `write_cross_section_line` (lines 292-304). -/
def write_cross_section_line (xs : CrossSection) : Str :=
  'C' :: ' ' :: (ryuFormat xs.cross_section
    ++ ' ' :: ryuFormat xs.cross_section_error ++ ['\n'])

/-- writer.rs `write_pdf_info_line` (lines 306-325): nine fields, the two
pdf ids always included. -/
def write_pdf_info_line (pdf : PdfInfo) : Str :=
  'F' :: ' ' :: (intStr pdf.parton_id.1
    ++ ' ' :: intStr pdf.parton_id.2
    ++ ' ' :: ryuFormat pdf.x.1
    ++ ' ' :: ryuFormat pdf.x.2
    ++ ' ' :: ryuFormat pdf.scale
    ++ ' ' :: ryuFormat pdf.xf.1
    ++ ' ' :: ryuFormat pdf.xf.2
    ++ ' ' :: intStr pdf.pdf_id.1
    ++ ' ' :: intStr pdf.pdf_id.2
    ++ ['\n'])

/-- writer.rs `write_heavy_ion_info_line` (lines 327-350): thirteen
fields. -/
def write_heavy_ion_info_line (hi : HeavyIonInfo) : Str :=
  'H' :: ' ' :: (intStr hi.ncoll_hard
    ++ ' ' :: intStr hi.npart_proj
    ++ ' ' :: intStr hi.npart_targ
    ++ ' ' :: intStr hi.ncoll
    ++ ' ' :: intStr hi.spectator_neutrons
    ++ ' ' :: intStr hi.spectator_protons
    ++ ' ' :: intStr hi.n_nwounded_collisions
    ++ ' ' :: intStr hi.nwounded_n_collisions
    ++ ' ' :: intStr hi.nwounded_nwounded_collisions
    ++ ' ' :: ryuFormat hi.impact_parameter
    ++ ' ' :: ryuFormat hi.event_plane_angle
    ++ ' ' :: ryuFormat hi.eccentricity
    ++ ' ' :: ryuFormat hi.sigma_inel_nn
    ++ ['\n'])

/-- writer.rs `write` (lines 143-165): the serialized lines of one event in
order - the event line, the weight-names line only when the name list is
non-empty, the unit, cross-section and PDF lines, the heavy-ion line only
when present, then for every vertex its line followed by one particle line
per incoming then outgoing particle. -/
def writeEvent (e : Event) : List Str :=
  [write_event_line e]
    ++ (if e.weight_names.isEmpty then [] else [write_weight_names_line e.weight_names])
    ++ [write_unit_line e, write_cross_section_line e.xs, write_pdf_info_line e.pdf_info]
    ++ (match e.heavy_ion_info with
        | some hi => [write_heavy_ion_info_line hi]
        | none => [])
    ++ (e.vertices.map (fun v =>
          write_vertex_line v
            :: (v.particles_in ++ v.particles_out).map write_particle_line)).flatten

/-- writer.rs `DEFAULT_HEADER` (lines 11-13), written as one chunk. -/
def DEFAULT_HEADER : Str :=
  ("HepMC::Version 2.06.09\n" ++ "HepMC::IO_GenEvent-START_EVENT_LISTING\n").data

/-- writer.rs `DEFAULT_FOOTER` (line 15). -/
def DEFAULT_FOOTER : Str := "HepMC::IO_GenEvent-END_EVENT_LISTING\n".data

/-- writer.rs `Writer` (lines 37-42): the output stream as the list of
chunks written so far, plus the `finished` flag. -/
structure WriterSt where
  stream : List Str
  finished : Bool
deriving DecidableEq, Repr

/-- writer.rs `Writer::new` (lines 72-75) by way of `with_header` (lines
93-104) with the default header: the header is written on construction
and `finished` starts false. -/
def writerNew : WriterSt := ⟨[DEFAULT_HEADER], false⟩

/-- writer.rs `write` (lines 143-165) at the stream level: append the
event's serialized lines. -/
def writerWrite (st : WriterSt) (e : Event) : WriterSt :=
  ⟨st.stream ++ writeEvent e, st.finished⟩

/-- writer.rs `ref_finish` (lines 172-177): write the footer and mark the
writer finished. -/
def ref_finish (st : WriterSt) : WriterSt := ⟨st.stream ++ [DEFAULT_FOOTER], true⟩

/-- writer.rs `finish` (lines 121-124): calls `ref_finish` and consumes
the writer (whose destructor then sees `finished` set). -/
def writerFinish (st : WriterSt) : WriterSt := ref_finish st

/-- writer.rs `into_inner` (lines 46-52): set `finished` so the destructor
does nothing, handing back the stream without any footer. -/
def into_inner (st : WriterSt) : WriterSt := ⟨st.stream, true⟩

/-- The `Drop` impl of writer.rs (lines 353-373): when the writer was not
finished, a best-effort `ref_finish` (its logging is not modelled). -/
def writerDrop (st : WriterSt) : WriterSt := if st.finished then st else ref_finish st

/-- How a writer's lifetime ends before its destructor runs: an explicit
`finish`, consumption by `into_inner`, or nothing (plain drop). -/
inductive Terminator where
  | viaFinish
  | viaIntoInner
  | viaDrop
deriving DecidableEq, Repr

/-- One full lifetime of a writer built by `Writer::new`: a sequence of
event writes, at most one consuming terminator, then the destructor. -/
def runWriter (events : List Event) (t : Terminator) : WriterSt :=
  let st := events.foldl writerWrite writerNew
  match t with
  | Terminator.viaFinish => writerDrop (writerFinish st)
  | Terminator.viaIntoInner => writerDrop (into_inner st)
  | Terminator.viaDrop => writerDrop st

/-- Number of times the footer chunk was written to the stream. -/
def footerCount (st : WriterSt) : Nat := st.stream.count DEFAULT_FOOTER

/-- A minimal well-formed `E` line (the shape of the spec's concrete
scenario). -/
def eLineSample : Str := "E 0 -1 -1.0 -1.0 -1.0 0 0 1 1 2 0 0\n".data

/-- The event parsed from `eLineSample`. -/
def ev0Sample : REvent :=
  { number := 0
    mpi := -1
    scale := ⟨"-1.0".data⟩
    alpha_qcd := ⟨"-1.0".data⟩
    alpha_qed := ⟨"-1.0".data⟩
    signal_process_id := 0
    signal_process_vertex := 0
    random_states := []
    weights := []
    vertices := []
    weight_names := []
    xs := CrossSection.dflt
    energy_unit := []
    length_unit := []
    pdf_info := PdfInfo.dflt }

/-- A well-formed `V` line with barcode -1 and no weights. -/
def vLineSample : Str := "V -1 0 0 0 0 0 0 1 0\n".data

/-- The vertex parsed from `vLineSample`. -/
def vertexSample : Vertex :=
  { barcode := -1
    status := 0
    x := ⟨['0']⟩
    y := ⟨['0']⟩
    z := ⟨['0']⟩
    t := ⟨['0']⟩
    weights := []
    particles_in := []
    particles_out := [] }

/-- A well-formed `P` line whose `end_vtx` token is `-1` and whose barcode
token is `7`. -/
def pLineSample : Str := "P 7 11 1.0 2.0 3.0 4.0 0.0 1 0.0 0.0 -1 0\n".data

/-- The particle parsed from `pLineSample` (the barcode token is
discarded). -/
def particleSample : Particle :=
  { id := 11
    p := FourVector.txyz ⟨"4.0".data⟩ ⟨"1.0".data⟩ ⟨"2.0".data⟩ ⟨"3.0".data⟩
    m := ⟨"0.0".data⟩
    status := 1
    theta := ⟨"0.0".data⟩
    phi := ⟨"0.0".data⟩
    flows := []
    end_vtx := -1 }

/-- A well-formed thirteen-field `H` record. -/
def hLineSample : Str := "H 1 1 1 1 1 1 1 1 1 1.0 1.0 1.0 1.0\n".data

/-- A second thirteen-field `H` record (zeroed counts). -/
def hLineSample2 : Str := "H 0 0 0 0 0 0 0 0 0 0.5 0.5 0.5 0.5\n".data

theorem liftE_ok (r : Except ParseError REvent) (ev2 : REvent) :
    liftE r = StepRes.ok ev2 ↔ r = Except.ok ev2 := by
  cases r <;> simp [liftE]

theorem parse_event_line_vertices (l : Str) (ev : REvent)
    (h : parse_event_line l = Except.ok ev) : ev.vertices = [] := by
  unfold parse_event_line at h
  repeat' split at h
  all_goals cases h
  rfl

theorem parse_units_line_vertices (l : Str) (ev ev2 : REvent)
    (h : parse_units_line l ev = Except.ok ev2) : ev2.vertices = ev.vertices := by
  unfold parse_units_line at h
  repeat' split at h
  all_goals cases h
  rfl

theorem parse_pdf_info_line_vertices (l : Str) (ev ev2 : REvent)
    (h : parse_pdf_info_line l ev = Except.ok ev2) : ev2.vertices = ev.vertices := by
  unfold parse_pdf_info_line at h
  repeat' split at h
  all_goals cases h
  rfl

theorem parse_weight_names_line_vertices (l : Str) (ev ev2 : REvent)
    (h : parse_weight_names_line l ev = Except.ok ev2) : ev2.vertices = ev.vertices := by
  unfold parse_weight_names_line at h
  repeat' split at h
  all_goals cases h
  rfl

theorem parse_xs_info_line_vertices (l : Str) (ev ev2 : REvent)
    (h : parse_xs_info_line l ev = Except.ok ev2) : ev2.vertices = ev.vertices := by
  unfold parse_xs_info_line at h
  repeat' split at h
  all_goals cases h
  rfl

theorem parse_particle_line_no_vertex (l : Str) (ev : REvent) (p : Particle)
    (h0 : ev.vertices = []) (hp : particleFromLine l = Except.ok p) :
    parse_particle_line l ev = Except.error ParseError.NoVertex := by
  simp only [parse_particle_line, hp, h0, List.getLast?_nil]

theorem bodyStep_keeps_no_vertices (l : Str) (ev ev2 : REvent)
    (h : bodyStep l ev = StepRes.ok ev2) (hV : l.head? ≠ some 'V')
    (h0 : ev.vertices = []) : ev2.vertices = [] := by
  unfold bodyStep at h
  cases hh : l.head? with
  | none => rw [hh] at h; cases h
  | some c =>
    rw [hh] at h
    simp only at h
    split_ifs at h with h1 h2 h3 h4 h5 h6 h7
    · exact absurd (by rw [hh, h1]) hV
    · rw [liftE_ok] at h
      cases hpf : particleFromLine l with
      | error e =>
        rw [parse_particle_line, hpf] at h
        cases h
      | ok p =>
        rw [parse_particle_line_no_vertex l ev p h0 hpf] at h
        cases h
    · rw [liftE_ok] at h
      rw [parse_units_line_vertices l ev ev2 h, h0]
    · rw [liftE_ok] at h
      rw [parse_pdf_info_line_vertices l ev ev2 h, h0]
    · rw [parse_heavy_ion_line] at h
      cases h
    · rw [liftE_ok] at h
      rw [parse_weight_names_line_vertices l ev ev2 h, h0]
    · rw [liftE_ok] at h
      rw [parse_xs_info_line_vertices l ev ev2 h, h0]

theorem processPrefix_keeps_no_vertices (pre : List Str) (ev ev2 : REvent)
    (h : processPrefix ev pre = some ev2) (hV : ∀ l ∈ pre, l.head? ≠ some 'V')
    (h0 : ev.vertices = []) : ev2.vertices = [] := by
  induction pre generalizing ev with
  | nil =>
    simp only [processPrefix, Option.some.injEq] at h
    rw [← h]
    exact h0
  | cons l ls ih =>
    unfold processPrefix at h
    cases hb : bodyStep l ev with
    | ok ev3 =>
      rw [hb] at h
      exact ih ev3 h (fun x hx => hV x (List.mem_cons_of_mem _ hx))
        (bodyStep_keeps_no_vertices l ev ev3 hb (hV l (List.mem_cons_self _ _)) h0)
    | err e => rw [hb] at h; cases h
    | panic => rw [hb] at h; cases h

theorem eventLoop_cons_ok (l : Str) (rest : List Str) (ev ev3 : REvent) (nr : Nat)
    (hEl : l.head? ≠ some 'E') (hb : bodyStep l ev = StepRes.ok ev3) :
    eventLoop ev (l :: rest) nr = eventLoop ev3 rest (nr + 1) := by
  rw [eventLoop, if_neg hEl, hb]

theorem eventLoop_cons_err (l : Str) (rest : List Str) (ev : REvent) (nr : Nat)
    (e : ParseError) (hEl : l.head? ≠ some 'E') (hb : bodyStep l ev = StepRes.err e) :
    eventLoop ev (l :: rest) nr = LoopRes.err e l (nr + 1) := by
  rw [eventLoop, if_neg hEl, hb]

theorem eventLoop_append (pre tail : List Str) (ev ev2 : REvent) (nr : Nat)
    (hok : processPrefix ev pre = some ev2)
    (hE : ∀ l ∈ pre, l.head? ≠ some 'E') :
    eventLoop ev (pre ++ tail) nr = eventLoop ev2 tail (nr + pre.length) := by
  induction pre generalizing ev nr with
  | nil =>
    simp only [processPrefix, Option.some.injEq] at hok
    rw [hok]
    simp
  | cons l ls ih =>
    have hEl : l.head? ≠ some 'E' := hE l (List.mem_cons_self _ _)
    unfold processPrefix at hok
    cases hb : bodyStep l ev with
    | ok ev3 =>
      rw [hb] at hok
      rw [List.cons_append, eventLoop_cons_ok l (ls ++ tail) ev ev3 nr hEl hb,
        ih ev3 (nr + 1) hok (fun x hx => hE x (List.mem_cons_of_mem _ hx))]
      congr 1
      simp [List.length_cons]
      omega
    | err e => rw [hb] at hok; cases hok
    | panic => rw [hb] at hok; cases hok

theorem bodyStep_particle_no_vertex (l : Str) (ev : REvent) (p : Particle)
    (hP : l.head? = some 'P') (hp : particleFromLine l = Except.ok p)
    (h0 : ev.vertices = []) : bodyStep l ev = StepRes.err ParseError.NoVertex := by
  have h2 : parse_particle_line l ev = Except.error ParseError.NoVertex :=
    parse_particle_line_no_vertex l ev p h0 hp
  unfold bodyStep
  rw [hP]
  simp only [h2]
  rfl

/-- Claim C2: for every vertex V and every particle record P parsed after
V's line and before the next V or E line (so that V is the last vertex of
the event under construction), the reader appends P to `V.particles_in`
exactly when `P.end_vtx` equals `V.barcode`, and to `V.particles_out`
otherwise; nothing else on the event changes. -/
theorem particle_classified_by_end_vtx (l : Str) (ev : REvent) (p : Particle)
    (vs : List Vertex) (v : Vertex)
    (hp : particleFromLine l = Except.ok p)
    (hv : ev.vertices = vs ++ [v]) :
    parse_particle_line l ev = Except.ok { ev with vertices := vs ++
      [if p.end_vtx = v.barcode
       then { v with particles_in := v.particles_in ++ [p] }
       else { v with particles_out := v.particles_out ++ [p] }] } := by
  simp only [parse_particle_line, hp, hv, List.getLast?_concat, List.dropLast_concat]

/-- Witness for C2 at a concrete `P` line and a one-vertex event: the
particle's `end_vtx` is -1, the vertex barcode is -1, and the particle
lands in `particles_in`. -/
theorem particle_classified_by_end_vtx_witness :
    particleFromLine pLineSample = Except.ok particleSample ∧
    parse_particle_line pLineSample { ev0Sample with vertices := [vertexSample] } =
      Except.ok { ev0Sample with vertices :=
        [if particleSample.end_vtx = vertexSample.barcode
         then { vertexSample with particles_in := vertexSample.particles_in ++ [particleSample] }
         else { vertexSample with particles_out := vertexSample.particles_out ++ [particleSample] }] } :=
  ⟨by decide,
    particle_classified_by_end_vtx pLineSample { ev0Sample with vertices := [vertexSample] }
      particleSample [] vertexSample (by decide) rfl⟩

/-- Claim C3: when, inside the event opened by a well-formed `E` line, a
well-formed `P` record arrives after a prefix of successfully handled
lines none of which is a `V` (or `E`) line, the reader stops with the
structural `NoVertex` error, wrapped with the offending `P` line and its
1-based line number - no panic and no silent drop of the particle. -/
theorem particle_before_vertex_is_no_vertex_error
    (eline pline : Str) (pre tail : List Str) (nr : Nat) (ev0 ev1 : REvent) (p : Particle)
    (h0 : parse_event_line eline = Except.ok ev0)
    (hpre : ∀ l ∈ pre, l.head? ≠ some 'E' ∧ l.head? ≠ some 'V')
    (hok : processPrefix ev0 pre = some ev1)
    (hP : pline.head? = some 'P')
    (hp : particleFromLine pline = Except.ok p) :
    parse_event eline (pre ++ pline :: tail) nr =
      EventRes.err ⟨ParseError.NoVertex, pline, nr + pre.length + 1⟩ := by
  have hv0 : ev0.vertices = [] := parse_event_line_vertices eline ev0 h0
  have hv1 : ev1.vertices = [] :=
    processPrefix_keeps_no_vertices pre ev0 ev1 hok (fun l hl => (hpre l hl).2) hv0
  have hPE : pline.head? ≠ some 'E' := by rw [hP]; decide
  simp only [parse_event, h0]
  rw [eventLoop_append pre (pline :: tail) ev0 ev1 nr hok (fun l hl => (hpre l hl).1)]
  rw [eventLoop_cons_err pline tail ev1 (nr + pre.length) ParseError.NoVertex hPE
    (bodyStep_particle_no_vertex pline ev1 p hP hp hv1)]

/-- Witness for C3: an `E` line directly followed by a `P` line yields the
`NoVertex` error carrying that `P` line and line number 2. -/
theorem particle_before_vertex_is_no_vertex_error_witness :
    parse_event_line eLineSample = Except.ok ev0Sample ∧
    parse_event eLineSample [pLineSample] 1 =
      EventRes.err ⟨ParseError.NoVertex, pLineSample, 2⟩ :=
  ⟨by decide,
    particle_before_vertex_is_no_vertex_error eLineSample pLineSample [] [] 1
      ev0Sample ev0Sample particleSample (by decide) (by simp) rfl (by decide) (by decide)⟩

/-- Claim C1 fails on the code: a syntactically valid stream (banner,
well-formed `E` line, thirteen-field `H` record) makes the very first
read panic - `parse_heavy_ion_line` is the `unimplemented` macro - so no
`Event` is ever produced and the read-write-read round trip is
impossible on such streams. -/
theorem round_trip_read_panics_on_heavy_ion :
    readerNext [] ["HepMC::Version 2.06.09\n".data,
      "HepMC::IO_GenEvent-START_EVENT_LISTING\n".data, eLineSample, hLineSample] 0 =
      NextRes.panic hLineSample 4 := by decide

/-- Claim C5 fails on the code: a well-formed thirteen-field `H` record in
the event body reaches `parse_heavy_ion_line`, whose body is the
`unimplemented` macro, and the reader panics instead of parsing the
fields or returning an error value. -/
theorem heavy_ion_line_always_panics :
    parse_event eLineSample [hLineSample2] 1 = EventRes.panic hLineSample2 2 := by decide

/-- Claim C6 fails on the code: `parse_units_line` accepts the `U` record
`U FOO BAR` - neither token is in the closed enumerations of event.rs -
and stores both tokens verbatim as strings on the event instead of
returning a parse error. -/
theorem units_line_accepts_unknown_tokens :
    parse_units_line "U FOO BAR\n".data ev0Sample =
      Except.ok { ev0Sample with energy_unit := "FOO".data, length_unit := "BAR".data } := by
  decide

/-- Claim C7 fails on the code: a blank line inside the event body falls
through to the catch-all arm of the dispatch (its first byte is the
newline) and parsing stops with a `BadPrefix` error instead of skipping
the line. -/
theorem blank_line_in_body_is_bad_prefix_error :
    parse_event eLineSample ["\n".data, vLineSample] 1 =
      EventRes.err ⟨ParseError.BadPrefix, "\n".data, 2⟩ := by decide

/-- Claim C8 fails on the code: the `F` grammar demands a space-or-tab
`whitespace` after `xf1` and after each optional id position, so the
seven-field form (ids absent) always fails at the newline instead of
succeeding with zero ids - and even the writer's own nine-field `F` line
fails for the same reason. -/
theorem pdf_line_without_ids_is_rejected :
    parse_pdf_info_line "F 1 -1 0.5 0.5 100.0 1.0 1.0\n".data ev0Sample =
      Except.error ParseError.Parse ∧
    parse_pdf_info_line "F 1 -1 0.5 0.5 100.0 1.0 1.0 0 0\n".data ev0Sample =
      Except.error ParseError.Parse := by decide

/-- Tokens matched by the reader's `int` grammar: an optional minus sign,
then at least one digit. -/
def isIntToken (t : Str) : Bool :=
  if t.head? = some '-' then !t.tail.isEmpty && t.tail.all Char.isDigit
  else !t.isEmpty && t.all Char.isDigit

theorem isIntToken_cases (b : Str) (hb : isIntToken b = true) :
    (∃ ds, b = '-' :: ds ∧ ds ≠ [] ∧ ds.all Char.isDigit = true) ∨
      (b ≠ [] ∧ b.head? ≠ some '-' ∧ b.all Char.isDigit = true) := by
  unfold isIntToken at hb
  by_cases hh : b.head? = some '-'
  · rw [if_pos hh, Bool.and_eq_true, Bool.not_eq_true', List.isEmpty_eq_false] at hb
    cases b with
    | nil => cases hh
    | cons c cs =>
      rw [List.head?_cons, Option.some.injEq] at hh
      subst hh
      exact Or.inl ⟨cs, rfl, by simpa using hb.1, by simpa using hb.2⟩
  · rw [if_neg hh, Bool.and_eq_true, Bool.not_eq_true', List.isEmpty_eq_false] at hb
    exact Or.inr ⟨hb.1, hh, hb.2⟩

theorem takeWhile_all_append (p : Char → Bool) (xs : Str) (y : Char) (r : Str)
    (hxs : ∀ c ∈ xs, p c = true) (hy : p y = false) :
    (xs ++ y :: r).takeWhile p = xs ∧ (xs ++ y :: r).dropWhile p = y :: r := by
  induction xs with
  | nil => simp [List.takeWhile_cons, List.dropWhile_cons, hy]
  | cons a as ih =>
    have ha : p a = true := hxs a (List.mem_cons_self _ _)
    have ih2 := ih (fun c hc => hxs c (List.mem_cons_of_mem _ hc))
    simp [List.takeWhile_cons, List.dropWhile_cons, ha, ih2.1, ih2.2]

theorem int_consumes_token (b r : Str) (hb : isIntToken b = true) :
    int (b ++ ' ' :: r) = some (' ' :: r, b) := by
  have hsp : Char.isDigit ' ' = false := by decide
  rcases isIntToken_cases b hb with ⟨ds, hbe, hne, hall⟩ | ⟨hne, hhd, hall⟩
  · subst hbe
    have h := takeWhile_all_append Char.isDigit ds ' ' r
      (fun c hc => by
        rw [List.all_eq_true] at hall
        exact hall c hc) hsp
    rw [List.cons_append]
    unfold int
    rw [if_pos (by rw [List.head?_cons])]
    rw [List.tail_cons]
    unfold takeWhile1
    simp only [h.1, h.2]
    rw [if_neg (by simp [List.isEmpty_eq_false, hne])]
  · have h := takeWhile_all_append Char.isDigit b ' ' r
      (fun c hc => by
        rw [List.all_eq_true] at hall
        exact hall c hc) hsp
    unfold int
    rw [if_neg (by
      intro hh
      cases b with
      | nil => cases hh
      | cons c cs =>
        rw [List.cons_append, List.head?_cons] at hh
        exact hhd (by rw [List.head?_cons, hh]))]
    unfold takeWhile1
    simp only [h.1, h.2]
    rw [if_neg (by simp [List.isEmpty_eq_false, hne])]

theorem whitespace_space_cons (c : Char) (t : Str)
    (hc : (c == ' ' || c == '\t') = false) :
    whitespace (' ' :: c :: t) = some (c :: t, [' ']) := by
  have h1 : ((' ' : Char) == ' ' || (' ' : Char) == '\t') = true := by decide
  simp [whitespace, takeWhile1, List.takeWhile_cons, List.dropWhile_cons, h1, hc]

theorem digit_not_space (c : Char) (hc : c.isDigit = true) :
    (c == ' ' || c == '\t') = false := by
  cases h : (c == ' ' || c == '\t') with
  | false => rfl
  | true =>
    rw [Bool.or_eq_true, beq_iff_eq, beq_iff_eq] at h
    rcases h with h | h <;> (subst h; exact absurd hc (by decide))

theorem intToken_head_not_space (b : Str) (hb : isIntToken b = true) :
    ∃ c t, b = c :: t ∧ (c == ' ' || c == '\t') = false := by
  rcases isIntToken_cases b hb with ⟨ds, hbe, _, _⟩ | ⟨hne, _, hall⟩
  · exact ⟨'-', ds, hbe, by decide⟩
  · cases b with
    | nil => exact absurd rfl hne
    | cons c cs =>
      refine ⟨c, cs, rfl, digit_not_space c ?_⟩
      rw [List.all_eq_true] at hall
      exact hall c (List.mem_cons_self _ _)

theorem charP_cons_self (c : Char) (r : Str) : charP c (c :: r) = some (r, c) := by
  simp [charP]

theorem particleFromLine_barcode_irrelevant (b rest : Str) (hb : isIntToken b = true) :
    particleFromLine ('P' :: ' ' :: (b ++ ' ' :: rest)) = particleAfterBarcode (' ' :: rest) := by
  obtain ⟨c, t, hbe, hcs⟩ := intToken_head_not_space b hb
  simp only [particleFromLine, hbe, List.cons_append, charP_cons_self,
    whitespace_space_cons c (t ++ ' ' :: rest) hcs]
  rw [← List.cons_append, ← hbe, int_consumes_token b rest hb]

/-- Claim C10: the writer emits the literal constant `0` as the
particle-barcode token of every `P` line, and the reader discards the
barcode token of an input `P` line - two lines differing only in that
token parse identically - so input particle barcodes survive neither in
the data model nor in re-serialized output. -/
theorem particle_barcode_never_preserved (b1 b2 rest : Str) (ev : REvent)
    (h1 : isIntToken b1 = true) (h2 : isIntToken b2 = true) :
    (∀ particle : Particle, ∃ r : Str,
      write_particle_line particle = 'P' :: ' ' :: '0' :: ' ' :: r) ∧
      parse_particle_line ('P' :: ' ' :: (b1 ++ ' ' :: rest)) ev =
        parse_particle_line ('P' :: ' ' :: (b2 ++ ' ' :: rest)) ev := by
  constructor
  · intro particle
    exact ⟨_, rfl⟩
  · unfold parse_particle_line
    rw [particleFromLine_barcode_irrelevant b1 rest h1,
      particleFromLine_barcode_irrelevant b2 rest h2]

/-- Witness for C10 at the concrete barcode tokens `3` and `-7`. -/
theorem particle_barcode_never_preserved_witness :
    isIntToken ['3'] = true ∧ isIntToken ['-', '7'] = true ∧
    ((∀ particle : Particle, ∃ r : Str,
      write_particle_line particle = 'P' :: ' ' :: '0' :: ' ' :: r) ∧
      parse_particle_line ('P' :: ' ' :: (['3'] ++ ' ' :: "11 1.0 2.0 3.0 4.0 0.0 1 0.0 0.0 -1 0\n".data)) ev0Sample =
        parse_particle_line ('P' :: ' ' :: (['-', '7'] ++ ' ' :: "11 1.0 2.0 3.0 4.0 0.0 1 0.0 0.0 -1 0\n".data)) ev0Sample) :=
  ⟨by decide, by decide,
    particle_barcode_never_preserved ['3'] ['-', '7']
      "11 1.0 2.0 3.0 4.0 0.0 1 0.0 0.0 -1 0\n".data ev0Sample (by decide) (by decide)⟩

theorem head?_write_event_line (e : Event) : (write_event_line e).head? = some 'E' := rfl

theorem head?_write_weight_names_line (names : List Str) :
    (write_weight_names_line names).head? = some 'N' := rfl

theorem head?_write_unit_line (e : Event) : (write_unit_line e).head? = some 'U' := rfl

theorem head?_write_cross_section_line (xs : CrossSection) :
    (write_cross_section_line xs).head? = some 'C' := rfl

theorem head?_write_pdf_info_line (pdf : PdfInfo) :
    (write_pdf_info_line pdf).head? = some 'F' := rfl

theorem head?_write_heavy_ion_info_line (hi : HeavyIonInfo) :
    (write_heavy_ion_info_line hi).head? = some 'H' := rfl

theorem head?_write_vertex_line (v : Vertex) : (write_vertex_line v).head? = some 'V' := rfl

theorem head?_write_particle_line (particle : Particle) :
    (write_particle_line particle).head? = some 'P' := rfl

theorem mem_vertex_section_head (vs : List Vertex) (l : Str)
    (h : l ∈ (vs.map (fun v =>
      write_vertex_line v
        :: (v.particles_in ++ v.particles_out).map write_particle_line)).flatten) :
    l.head? = some 'V' ∨ l.head? = some 'P' := by
  rw [List.mem_flatten] at h
  obtain ⟨block, hblock, hl⟩ := h
  rw [List.mem_map] at hblock
  obtain ⟨v, _, rfl⟩ := hblock
  rcases List.mem_cons.mp hl with rfl | hl2
  · exact Or.inl (head?_write_vertex_line v)
  · obtain ⟨particle, _, rfl⟩ := List.mem_map.mp hl2
    exact Or.inr (head?_write_particle_line particle)

/-- Claim C9: the writer emits an `N` (weight-names) line for an event
exactly when the event's weight-name list is non-empty. -/
theorem weight_names_line_iff_nonempty (e : Event) :
    (∃ l ∈ writeEvent e, l.head? = some 'N') ↔ e.weight_names ≠ [] := by
  constructor
  · rintro ⟨l, hl, hN⟩
    intro hempty
    rw [writeEvent, hempty] at hl
    simp only [List.isEmpty_nil, if_true, List.append_nil, List.nil_append,
      List.mem_append, List.mem_cons, List.mem_singleton, List.not_mem_nil,
      or_false, false_or] at hl
    rcases hl with ((rfl | rfl | rfl | rfl) | hl2) | hl3
    · rw [head?_write_event_line] at hN
      cases hN
    · rw [head?_write_unit_line] at hN
      cases hN
    · rw [head?_write_cross_section_line] at hN
      cases hN
    · rw [head?_write_pdf_info_line] at hN
      cases hN
    · cases hhi : e.heavy_ion_info with
      | none => rw [hhi] at hl2; cases hl2
      | some hi =>
        rw [hhi] at hl2
        rcases List.mem_singleton.mp hl2 with rfl
        rw [head?_write_heavy_ion_info_line] at hN
        cases hN
    · rcases mem_vertex_section_head e.vertices l hl3 with hV | hP
      · rw [hV] at hN
        cases hN
      · rw [hP] at hN
        cases hN
  · intro hne
    refine ⟨write_weight_names_line e.weight_names, ?_, head?_write_weight_names_line _⟩
    rw [writeEvent]
    rw [if_neg (by rw [List.isEmpty_eq_false.mpr hne]; exact Bool.false_ne_true)]
    simp [List.mem_append]

theorem footer_head : DEFAULT_FOOTER.head? = some 'H' := rfl

theorem footer_ne_of_head (l : Str) (c : Char) (hc : l.head? = some c) (hne : c ≠ 'H') :
    DEFAULT_FOOTER ≠ l := by
  intro he
  rw [← he, footer_head] at hc
  cases hc
  exact hne rfl

theorem footer_ne_hi_line (hi : HeavyIonInfo) :
    DEFAULT_FOOTER ≠ write_heavy_ion_info_line hi := by
  intro he
  have h1 : (write_heavy_ion_info_line hi).tail.head? = some ' ' := rfl
  rw [← he] at h1
  exact absurd h1 (by decide)

theorem footer_not_mem_writeEvent (e : Event) : DEFAULT_FOOTER ∉ writeEvent e := by
  intro h
  rw [writeEvent] at h
  have hE := footer_ne_of_head (write_event_line e) 'E' (head?_write_event_line e) (by decide)
  have hN := footer_ne_of_head (write_weight_names_line e.weight_names) 'N'
    (head?_write_weight_names_line _) (by decide)
  have hU := footer_ne_of_head (write_unit_line e) 'U' (head?_write_unit_line e) (by decide)
  have hC := footer_ne_of_head (write_cross_section_line e.xs) 'C'
    (head?_write_cross_section_line _) (by decide)
  have hF := footer_ne_of_head (write_pdf_info_line e.pdf_info) 'F'
    (head?_write_pdf_info_line _) (by decide)
  simp only [List.mem_append, List.mem_cons, List.mem_singleton, List.not_mem_nil,
    or_false, false_or] at h
  rcases h with ((h1 | h2) | h3) | h4
  · rcases h1 with h1 | h1
    · exact hE h1
    · by_cases hw : e.weight_names.isEmpty = true
      · rw [if_pos hw] at h1
        exact absurd h1 (List.not_mem_nil _)
      · rw [if_neg hw] at h1
        exact hN (List.mem_singleton.mp h1)
  · rcases h2 with h2 | h2 | h2
    · exact hU h2
    · exact hC h2
    · exact hF h2
  · cases hhi : e.heavy_ion_info with
    | none => rw [hhi] at h3; cases h3
    | some hi =>
      rw [hhi] at h3
      rcases List.mem_singleton.mp h3 with h3
      exact footer_ne_hi_line hi h3
  · rcases mem_vertex_section_head e.vertices DEFAULT_FOOTER h4 with hV | hP
    · rw [footer_head] at hV
      cases hV
    · rw [footer_head] at hP
      cases hP

theorem foldl_write_preserves (events : List Event) (st : WriterSt) :
    footerCount (events.foldl writerWrite st) = footerCount st ∧
      (events.foldl writerWrite st).finished = st.finished := by
  induction events generalizing st with
  | nil => exact ⟨rfl, rfl⟩
  | cons e es ih =>
    rw [List.foldl_cons]
    have hw : footerCount (writerWrite st e) = footerCount st := by
      unfold footerCount writerWrite
      simp only
      rw [List.count_append, List.count_eq_zero.mpr (footer_not_mem_writeEvent e),
        Nat.add_zero]
    have := ih (writerWrite st e)
    exact ⟨this.1.trans hw, this.2⟩

theorem footerCount_ref_finish (st : WriterSt) :
    footerCount (ref_finish st) = footerCount st + 1 := by
  unfold footerCount ref_finish
  rw [List.count_append]
  simp

/-- Claim C4 fails as stated: a writer consumed by `into_inner` (which
sets `finished` so the destructor stays silent) never writes the footer
at all - zero footers, not exactly one. -/
theorem footer_skipped_after_into_inner :
    footerCount (runWriter [] Terminator.viaIntoInner) = 0 := by decide

/-- Amended claim C4: over any writer lifetime the footer is written at
most once, and exactly once whenever the writer is not consumed by
`into_inner` (explicit `finish` and the drop fallback each write it once,
never twice; `into_inner` deliberately forgoes it). -/
theorem footer_written_at_most_once (events : List Event) (t : Terminator) :
    footerCount (runWriter events t) ≤ 1 ∧
      (t ≠ Terminator.viaIntoInner → footerCount (runWriter events t) = 1) := by
  have h0 := foldl_write_preserves events writerNew
  have hc0 : footerCount (events.foldl writerWrite writerNew) = 0 := by
    rw [h0.1]
    decide
  have hf0 : (events.foldl writerWrite writerNew).finished = false := h0.2
  cases t with
  | viaFinish =>
    rw [show runWriter events Terminator.viaFinish =
        ref_finish (events.foldl writerWrite writerNew) from rfl]
    rw [footerCount_ref_finish, hc0]
    exact ⟨le_refl 1, fun _ => rfl⟩
  | viaIntoInner =>
    rw [show runWriter events Terminator.viaIntoInner =
        into_inner (events.foldl writerWrite writerNew) from rfl]
    refine ⟨?_, fun hcon => absurd rfl hcon⟩
    rw [show footerCount (into_inner (events.foldl writerWrite writerNew)) =
      footerCount (events.foldl writerWrite writerNew) from rfl, hc0]
    exact Nat.zero_le 1
  | viaDrop =>
    rw [show runWriter events Terminator.viaDrop =
        ref_finish (events.foldl writerWrite writerNew) from by
      simp only [runWriter, writerDrop]
      rw [hf0]
      simp]
    rw [footerCount_ref_finish, hc0]
    exact ⟨le_refl 1, fun _ => rfl⟩

/-- Witness for the amended C4 at a concrete lifetime: a plain drop
writes the footer exactly once. -/
theorem footer_written_at_most_once_witness :
    footerCount (runWriter [] Terminator.viaDrop) ≤ 1 ∧
      (Terminator.viaDrop ≠ Terminator.viaIntoInner →
        footerCount (runWriter [] Terminator.viaDrop) = 1) :=
  footer_written_at_most_once [] Terminator.viaDrop
